import Mathlib

/-!
Verification of the JOB_PORTAL python-service scoring engines.

The development shallowly embeds the two scoring modules of the repository:

* `resume_ranker.py` (`EnhancedResumeRanker`): feature extraction from resume
  text, extractive summarisation, and the weighted fit score;
* `no_show_risk_analyzer.py` (`NoShowRiskAnalyzer`): the four no-show risk
  factors, their weighted combination, and the derived reporting fields.

Modelling conventions:

* Python strings are `List Char` (`PyStr`); `str.lower`, `str.strip`,
  `needle in hay`, `str.count` (non-overlapping), slicing and `rsplit` are
  embedded as explicit list functions with Python semantics.
* Python floats are modelled as exact rationals `ℚ`; `round(x, n)` is
  embedded as round-half-to-even on `x * 10^n` (Python's rounding rule).
  All concrete inputs used below are chosen away from representation
  boundaries so the rational results agree with the float results.
* External collaborators (the NLTK sentence tokenizer, the sklearn TF-IDF
  vectorizer, the HTTP layer, the resume download, and the database) are
  modelled as explicit inputs: the sentence splitter and sentence scorer are
  oracle function parameters, the TF-IDF cosine similarity is a rational
  parameter, and the database rows consumed by the risk analyzer are record
  parameters.  Everything downstream of those inputs is translated from the
  Python source.
-/

/-! ## Python string primitives -/

/-- Python strings, modelled as lists of characters. -/
abbrev PyStr := List Char

/-- Converts a Lean string literal to the `PyStr` model. -/
def lit (s : String) : PyStr := s.data

/-- Model of `str.lower()` (ASCII case folding). -/
def pyLower (s : PyStr) : PyStr := s.map Char.toLower

/-- Model of `str.strip()`: drop leading and trailing whitespace. -/
def pyStrip (s : PyStr) : PyStr :=
  ((s.dropWhile Char.isWhitespace).reverse.dropWhile Char.isWhitespace).reverse

/-- Tests whether `needle` is an initial segment of `hay`. -/
def leadsWith : PyStr → PyStr → Bool
  | [], _ => true
  | _ :: _, [] => false
  | c :: cs, d :: ds => c == d && leadsWith cs ds

/-- Model of Python's substring test `needle in hay`. -/
def pyIn (needle : PyStr) : PyStr → Bool
  | [] => needle.isEmpty
  | d :: ds => leadsWith needle (d :: ds) || pyIn needle ds

/-- Auxiliary loop for `pyCount`: counts non-overlapping occurrences of the
nonempty needle `c :: cs` in the haystack, scanning left to right and
resuming after the end of each match, exactly as `str.count` does. -/
def pyCountAux (c : Char) (cs : PyStr) : PyStr → Nat
  | [] => 0
  | d :: ds =>
    if c == d && leadsWith cs ds then 1 + pyCountAux c cs (ds.drop cs.length)
    else pyCountAux c cs ds
termination_by l => l.length
decreasing_by
  · simp only [List.length_drop, List.length_cons]; omega
  · simp only [List.length_cons]; omega

/-- Model of `str.count(needle)`: non-overlapping occurrences, left to right.
For an empty needle Python returns `len(hay) + 1`; the needles used by the
extractor are all nonempty. -/
def pyCount (needle hay : PyStr) : Nat :=
  match needle with
  | [] => hay.length + 1
  | c :: cs => pyCountAux c cs hay

/-! ## Feature extraction (`resume_ranker.py`, `_extract_*`) -/

/-- The fixed skill vocabulary of `_extract_skills`. -/
def skill_keywords : List PyStr :=
  [lit "python", lit "java", lit "javascript", lit "typescript", lit "react",
   lit "angular", lit "vue", lit "node", lit "express", lit "django",
   lit "flask", lit "spring", lit "sql", lit "nosql", lit "mongodb",
   lit "postgresql", lit "mysql", lit "redis", lit "aws", lit "azure",
   lit "gcp", lit "docker", lit "kubernetes", lit "git", lit "ci/cd",
   lit "agile", lit "scrum", lit "machine learning", lit "deep learning",
   lit "ai", lit "data science", lit "html", lit "css", lit "rest",
   lit "api", lit "microservices"]

/-- Model of `str.title()`: uppercase every letter that does not follow a
letter, lowercase the other letters (ASCII behaviour). -/
def pyTitleGo : Bool → PyStr → PyStr
  | _, [] => []
  | prevAlpha, c :: cs =>
    if c.isAlpha then
      (if prevAlpha then c.toLower else c.toUpper) :: pyTitleGo true cs
    else
      c :: pyTitleGo false cs

/-- Model of `str.title()`. -/
def pyTitle (s : PyStr) : PyStr := pyTitleGo false s

/-- Embeds `EnhancedResumeRanker._extract_skills`: a skill is found when its
lowercase keyword occurs as a substring of the lowercased text; the display
form is title-cased. -/
def extract_skills (text : PyStr) : List PyStr :=
  let text_lower := pyLower text
  (skill_keywords.filter (fun sk => pyIn sk text_lower)).map pyTitle

/-- Greedy digit run: returns the maximal leading digit run and the rest. -/
def takeDigits : PyStr → (PyStr × PyStr)
  | [] => ([], [])
  | c :: cs =>
    if c.isDigit then
      let (ds, r) := takeDigits cs
      (c :: ds, r)
    else ([], c :: cs)

/-- Numeric value of a digit run (Python `int`). -/
def digitsToNat (ds : PyStr) : Nat :=
  ds.foldl (fun a c => a * 10 + (c.toNat - 48)) 0

/-- Drops one optional literal character (regex `x?`). -/
def skipOpt (x : Char) : PyStr → PyStr
  | [] => []
  | d :: ds => if d == x then ds else d :: ds

/-- Drops a (possibly empty) run of whitespace (regex `\s*`). -/
def skipWs (s : PyStr) : PyStr := s.dropWhile Char.isWhitespace

/-- Drops a nonempty run of whitespace (regex `\s+`), or fails.  The regexes
below always follow `\s+` with a non-whitespace literal, so consuming the
whole run greedily needs no backtracking. -/
def skipWs1 : PyStr → Option PyStr
  | [] => none
  | d :: ds => if d.isWhitespace then some (skipWs ds) else none

/-- Drops a literal string, or fails. -/
def dropLit : PyStr → PyStr → Option PyStr
  | [], s => some s
  | _ :: _, [] => none
  | c :: cs, d :: ds => if c == d then dropLit cs ds else none

/-- Matches the optional group `(?:of\s+)?` at the head of `s`.  When the
group matches, the following atom is the literal `experience`/a digit, which
can never match the consumed `of` + whitespace, so committing to the group
when it matches is equivalent to the backtracking semantics. -/
def skipOfGroup (s : PyStr) : PyStr :=
  match dropLit (lit "of") s with
  | none => s
  | some r =>
    match skipWs1 r with
    | none => s
    | some r2 => r2

/-- Matches regex pattern 1 of `_extract_experience`,
`(\d+)\+?\s*years?\s+(?:of\s+)?experience`, at the head of `s`; returns the
captured integer.  Greedy matching of `\d+`, `years?` and the whitespace
runs is faithful here because each is followed by an atom that cannot
consume the greedily-taken characters. -/
def matchPat1 (s : PyStr) : Option Nat :=
  let (ds, r1) := takeDigits s
  if ds.isEmpty then none
  else
    let r3 := skipWs (skipOpt '+' r1)
    match dropLit (lit "year") r3 with
    | none => none
    | some r4 =>
      match skipWs1 (skipOpt 's' r4) with
      | none => none
      | some r6 =>
        match dropLit (lit "experience") (skipOfGroup r6) with
        | none => none
        | some _ => some (digitsToNat ds)

/-- Matches regex pattern 2 of `_extract_experience`,
`experience\s+(?:of\s+)?(\d+)\+?\s*years?`, at the head of `s`. -/
def matchPat2 (s : PyStr) : Option Nat :=
  match dropLit (lit "experience") s with
  | none => none
  | some r1 =>
    match skipWs1 r1 with
    | none => none
    | some r2 =>
      let (ds, r3) := takeDigits (skipOfGroup r2)
      if ds.isEmpty then none
      else
        let r5 := skipWs (skipOpt '+' r3)
        match dropLit (lit "year") r5 with
        | none => none
        | some _ => some (digitsToNat ds)

/-- Matches regex pattern 3 of `_extract_experience`,
`(\d+)\+?\s*years?\s+in`, at the head of `s`. -/
def matchPat3 (s : PyStr) : Option Nat :=
  let (ds, r1) := takeDigits s
  if ds.isEmpty then none
  else
    let r3 := skipWs (skipOpt '+' r1)
    match dropLit (lit "year") r3 with
    | none => none
    | some r4 =>
      match skipWs1 (skipOpt 's' r4) with
      | none => none
      | some r6 =>
        match dropLit (lit "in") r6 with
        | none => none
        | some _ => some (digitsToNat ds)

/-- Largest capture of the three patterns at one start position (`0` when
none matches, matching the `max_years = 0` initialisation of the code). -/
def matchExpAt (s : PyStr) : Nat :=
  max (max ((matchPat1 s).getD 0) ((matchPat2 s).getD 0)) ((matchPat3 s).getD 0)

/-- Embeds `EnhancedResumeRanker._extract_experience`: the maximum integer
captured by the three patterns over the lowercased text.  `re.findall`
returns non-overlapping matches scanned left to right; a potential match
that `findall` skips starts inside an earlier match of the same pattern, so
its digit run is a suffix of the earlier match's digit run and its value is
never larger.  Taking the maximum over all start positions therefore agrees
with taking the maximum over the `findall` matches. -/
def extract_experience (text : PyStr) : Nat :=
  let text_lower := pyLower text
  (text_lower.tails.map matchExpAt).foldl max 0

/-- The keyword stems of `_extract_project_count`. -/
def project_keywords : List PyStr :=
  [lit "project", lit "developed", lit "built", lit "created", lit "implemented"]

/-- Embeds `EnhancedResumeRanker._extract_project_count`: sum of the
non-overlapping occurrence counts of the five stems, capped at 20. -/
def extract_project_count (text : PyStr) : Nat :=
  let text_lower := pyLower text
  min (project_keywords.foldl (fun a k => a + pyCount k text_lower) 0) 20

/-- Embeds `EnhancedResumeRanker._extract_education_score`: the keyword
tiers are checked highest-first, each by raw substring membership in the
lowercased text. -/
def extract_education_score (text : PyStr) : Nat :=
  let tl := pyLower text
  if [lit "phd", lit "ph.d", lit "doctorate"].any (fun w => pyIn w tl) then 5
  else if [lit "master", lit "msc", lit "m.sc", lit "mba", lit "m.b.a"].any
      (fun w => pyIn w tl) then 4
  else if [lit "bachelor", lit "bsc", lit "b.sc", lit "ba", lit "b.a", lit "bs",
      lit "b.s"].any (fun w => pyIn w tl) then 3
  else if [lit "associate", lit "diploma"].any (fun w => pyIn w tl) then 2
  else if [lit "high school", lit "secondary"].any (fun w => pyIn w tl) then 1
  else 0

/-- The structured feature record produced by `_extract_features`. -/
structure Features where
  skills : List PyStr
  years_experience : Nat
  project_count : Nat
  education_score : Nat
deriving DecidableEq

/-- Embeds `EnhancedResumeRanker._extract_features`. -/
def extract_features (resume_text : PyStr) : Features :=
  { skills := extract_skills resume_text
    years_experience := extract_experience resume_text
    project_count := extract_project_count resume_text
    education_score := extract_education_score resume_text }

/-! ## Python rounding (`round(x, ndigits)`) -/

/-- Round-half-to-even on rationals, Python's `round` rule for integers. -/
def rhalfEven (q : ℚ) : ℤ :=
  if q - ⌊q⌋ = (1 : ℚ) / 2 then (if ⌊q⌋ % 2 = 0 then ⌊q⌋ else ⌊q⌋ + 1)
  else round q

/-- Model of Python `round(q, nd)`: round-half-to-even at `nd` decimal
places, on exact rationals. -/
def pyRound (q : ℚ) (nd : Nat) : ℚ :=
  (rhalfEven (q * (10 : ℚ) ^ nd) : ℚ) / (10 : ℚ) ^ nd

/-! ## Fit score (`resume_ranker.py`, `_compute_fit_score`) -/

/-- Experience sub-score of `_compute_fit_score`:
`min(features['years_experience'] / 10.0, 1.0)`. -/
def experience_subscore (f : Features) : ℚ :=
  min ((f.years_experience : ℚ) / 10) 1

/-- Project sub-score of `_compute_fit_score`:
`min(features['project_count'] / 15.0, 1.0)`. -/
def project_subscore (f : Features) : ℚ :=
  min ((f.project_count : ℚ) / 15) 1

/-- Skills sub-score of `_compute_fit_score`:
`min(len(features['skills']) / 10.0, 1.0)`. -/
def skills_subscore (f : Features) : ℚ :=
  min ((f.skills.length : ℚ) / 10) 1

/-- Education sub-score of `_compute_fit_score`:
`features['education_score'] / 5.0` — the code applies no clamp here. -/
def education_subscore (f : Features) : ℚ :=
  (f.education_score : ℚ) / 5

/-- Embeds `EnhancedResumeRanker._compute_fit_score`.  The TF-IDF cosine
similarity computed by sklearn from the two texts is the oracle input
`sim`; the weights are the fixed `self.weights` dictionary.  The `except`
branch returning `0.0` is unreachable in the total model. -/
def compute_fit_score (sim : ℚ) (f : Features) : ℚ :=
  (sim * (40 / 100) + experience_subscore f * (25 / 100)
    + project_subscore f * (20 / 100) + skills_subscore f * (10 / 100)
    + education_subscore f * (5 / 100)) * 100

/-! ## Summary generation (`resume_ranker.py`, `generate_summary`) -/

/-- Worker for `collapseWs`; the flag records whether the previous character
was whitespace (and was already emitted as the run's single space). -/
def collapseWsGo : Bool → PyStr → PyStr
  | _, [] => []
  | prevWs, c :: cs =>
    if c.isWhitespace then
      (if prevWs then [] else [' ']) ++ collapseWsGo true cs
    else c :: collapseWsGo false cs

/-- One pass of `re.sub(r'\s+', ' ', text)`: each maximal whitespace run
becomes a single space. -/
def collapseWs (s : PyStr) : PyStr := collapseWsGo false s

/-- Regex `\w`: word characters (ASCII letters, digits, underscore). -/
def isWordChar (c : Char) : Bool := c.isAlphanum || c == '_'

/-- One pass of `re.sub(r'[^\w\s\.]', ' ', text)`. -/
def stripSpecial (s : PyStr) : PyStr :=
  s.map (fun c => if isWordChar c || c.isWhitespace || c == '.' then c else ' ')

/-- Worker for `collapseDots`; the flag records whether the previous
character was a period. -/
def collapseDotsGo : Bool → PyStr → PyStr
  | _, [] => []
  | prevDot, c :: cs =>
    if c == '.' then
      (if prevDot then [] else ['.']) ++ collapseDotsGo true cs
    else c :: collapseDotsGo false cs

/-- One pass of `re.sub(r'\.+', '.', text)`: each maximal period run becomes
a single period. -/
def collapseDots (s : PyStr) : PyStr := collapseDotsGo false s

/-- Embeds `EnhancedResumeRanker._clean_text`: collapse whitespace, blank
out special characters, collapse period runs, strip. -/
def clean_text (text : PyStr) : PyStr :=
  pyStrip (collapseDots (stripSpecial (collapseWs text)))

/-- Model of `' '.join(parts)`. -/
def joinSp : List PyStr → PyStr
  | [] => []
  | x :: xs => xs.foldl (fun a s => a ++ ' ' :: s) x

/-- Model of `s.rsplit(' ', 1)[0]`: everything before the last space, or the
whole string when it has no space. -/
def rsplitDrop (s : PyStr) : PyStr :=
  match (s.reverse).dropWhile (fun c => !(c == ' ')) with
  | [] => s
  | _ :: rest => rest.reverse

/-- Embeds `np.argsort(scores)[::-1]` of `_select_top_sentences`: indices
sorted by ascending score, then reversed.  NumPy's default quicksort gives
no guarantee on the order of equal scores; the merge sort used here fixes
one of the admissible orders. -/
def argsortDesc (scores : List ℚ) : List Nat :=
  ((List.range scores.length).mergeSort
    (fun i j => decide (scores.getD i 0 ≤ scores.getD j 0))).reverse

/-- The greedy selection loop of `_select_top_sentences`, including the
early-stop heuristic `len(selected) >= 2 and current_length > max_length * 0.8`
checked after each iteration's optional insertion. -/
def selectGo (sentences : List PyStr) (max_length : Nat) :
    List Nat → List (Nat × PyStr) → Nat → List (Nat × PyStr)
  | [], sel, _ => sel
  | idx :: rest, sel, cur =>
    let sentence := sentences.getD idx []
    let fits := cur + sentence.length + 1 ≤ max_length
    let sel' := if fits then sel ++ [(idx, sentence)] else sel
    let cur' := if fits then cur + sentence.length + 1 else cur
    if 2 ≤ sel'.length ∧ (max_length : ℚ) * (8 / 10) < (cur' : ℚ) then sel'
    else selectGo sentences max_length rest sel' cur'

/-- Embeds `EnhancedResumeRanker._select_top_sentences`: greedy selection in
score order, then re-sorting the kept sentences by original position. -/
def select_top_sentences (sentences : List PyStr) (scores : List ℚ)
    (max_length : Nat) : List PyStr :=
  let ranked := argsortDesc scores
  let selected := selectGo sentences max_length ranked [] 0
  (selected.mergeSort (fun a b => decide (a.1 ≤ b.1))).map Prod.snd

/-- Embeds `EnhancedResumeRanker.generate_summary`.  The NLTK sentence
tokenizer is the oracle `split`; `_score_sentences` (sklearn TF-IDF row
sums, with its internal uniform-score fallback) is the oracle `score`.  The
outer `except` branch returning `"Error generating resume summary."` is
unreachable in the total model. -/
def generate_summary (split : PyStr → List PyStr) (score : List PyStr → List ℚ)
    (resume_text : PyStr) (max_length : Nat) : PyStr :=
  let text := clean_text resume_text
  if text = [] ∨ (pyStrip text).length < 50 then
    lit "Resume content too short to summarize."
  else
    let sentences := split text
    if sentences.length = 0 then
      lit "Unable to extract meaningful content from resume."
    else if sentences.length ≤ 2 then
      let summary := joinSp sentences
      summary.take max_length ++ (if max_length < summary.length then lit "..." else [])
    else
      let scores := score sentences
      let summary := joinSp (select_top_sentences sentences scores max_length)
      if max_length < summary.length then rsplitDrop (summary.take max_length) ++ lit "..."
      else summary

/-! ## Application processing (`resume_ranker.py`, `process_application`) -/

/-- The response dictionary of `process_application`; `error` is `none` on
the success path (the success dictionary has no `error` key). -/
structure ProcessResult where
  success : Bool
  fit_score : ℚ
  summary : PyStr
  extracted_features : Features
  error : Option PyStr
deriving DecidableEq

/-- Embeds `EnhancedResumeRanker.process_application` after the resume
download: `resume_text` is the text extracted from the fetched PDF (the
download and PDF parsing are external; a fetch failure raises before this
logic and yields the same error dictionary with the transport error
message).  The guard re-raises `ValueError("Resume text is empty or too
short")` into the catch-all, which builds the zeroed error response. -/
def process_application (split : PyStr → List PyStr) (score : List PyStr → List ℚ)
    (sim : ℚ) (resume_text job_description : PyStr) : ProcessResult :=
  if resume_text = [] ∨ (pyStrip resume_text).length < 50 then
    { success := false
      fit_score := 0
      summary := []
      extracted_features := ⟨[], 0, 0, 0⟩
      error := some (lit "Resume text is empty or too short") }
  else
    let features := extract_features resume_text
    let summary := generate_summary split score resume_text 200
    let fit_score := compute_fit_score sim features
    { success := true
      fit_score := pyRound fit_score 2
      summary := summary
      extracted_features := features
      error := none }

/-! ## No-show risk analyzer (`no_show_risk_analyzer.py`) -/

/-- One row of the `interviews` table, restricted to the columns the
analyzer reads.  Timestamps are seconds since an arbitrary epoch; `none`
models a SQL `NULL` (the Python code's `if not created_at` check). -/
structure Interview where
  id : Nat
  candidate_id : Nat
  status : PyStr
  created_at : Option ℤ
  updated_at : Option ℤ
deriving DecidableEq

/-- One row of the `users` table, restricted to the profile fields. -/
structure Candidate where
  name : Option PyStr
  email : Option PyStr
  phone : Option PyStr
deriving DecidableEq

/-- One row of the `applications` table, restricted to the fields read. -/
structure Application where
  cover_letter : Option PyStr
  address : Option PyStr
  resume_url : Option PyStr
deriving DecidableEq

/-- Embeds `NoShowRiskAnalyzer._calculate_response_time_risk`: 0.5 while the
invitation is unanswered or a timestamp is missing, otherwise a step
function of the hours elapsed between creation and last update. -/
def calculate_response_time_risk (interview : Interview) : ℚ :=
  if interview.status = lit "invitation_sent" then 1 / 2
  else
    match interview.created_at, interview.updated_at with
    | some created_at, some updated_at =>
      let hours_elapsed := ((updated_at - created_at : ℤ) : ℚ) / 3600
      if hours_elapsed < 6 then 1 / 10
      else if hours_elapsed < 24 then 3 / 10
      else if hours_elapsed < 48 then 7 / 10
      else 9 / 10
    | _, _ => 1 / 2

/-- Embeds `NoShowRiskAnalyzer._calculate_negotiation_risk`.  The input is
the `round` column of the most recent negotiation session for the
interview; `none` covers both "no negotiation record" and the
lookup-failure `except` branch, which return the same 0.1.  Note the final
`else` of the code maps every round count other than 1 and 2 — including
0 — to 0.8. -/
def calculate_negotiation_risk (negotiation : Option ℤ) : ℚ :=
  match negotiation with
  | none => 1 / 10
  | some rounds =>
    if rounds = 1 then 2 / 10
    else if rounds = 2 then 5 / 10
    else 8 / 10

/-- Truthiness-and-length test of the candidate profile fields:
`candidate.get(field) and len(str(candidate[field])) > 0`. -/
def fieldFilled (v : Option PyStr) : Bool :=
  match v with
  | some s => !s.isEmpty
  | none => false

/-- Meaningful-content test of the application fields:
`value and len(str(value)) > 10`. -/
def fieldMeaningful (v : Option PyStr) : Bool :=
  match v with
  | some s => decide (10 < s.length)
  | none => false

/-- Embeds `NoShowRiskAnalyzer._calculate_profile_completeness_risk`: six
fields are checked (`total_fields` is always 6, so the division guard of
the code never falls back), and the risk is one minus the filled ratio. -/
def calculate_profile_completeness_risk (candidate : Candidate)
    (application : Application) : ℚ :=
  let completeness_score : Nat :=
    (if fieldFilled candidate.name then 1 else 0)
    + (if fieldFilled candidate.email then 1 else 0)
    + (if fieldFilled candidate.phone then 1 else 0)
    + (if fieldMeaningful application.cover_letter then 1 else 0)
    + (if fieldMeaningful application.address then 1 else 0)
    + (if fieldMeaningful application.resume_url then 1 else 0)
  1 - (completeness_score : ℚ) / 6

/-- The terminal statuses of the historical-risk query. -/
def terminalStatuses : List PyStr :=
  [lit "completed", lit "no_show", lit "cancelled"]

/-- The scalar subquery
`SELECT id FROM interviews WHERE candidate_id = %s ORDER BY created_at DESC LIMIT 1`:
the id of the candidate's most recently created interview.  The model
compares `created_at` with `NULL` as 0 and keeps the earlier row on ties;
the SQL leaves both cases unspecified, and the theorems below only use rows
with distinct non-null timestamps. -/
def latestInterviewId (rows : List Interview) : Option Nat :=
  (rows.foldl
    (fun best r =>
      match best with
      | none => some r
      | some b => if (b.created_at.getD 0) < (r.created_at.getD 0) then some r else some b)
    none).map (·.id)

/-- The row set of the historical-risk query over the `interviews` table
`rows`: the candidate's rows whose id differs from the candidate's most
recently created interview and whose status is terminal, projected to
`status`.  Note the query excludes the most recent interview, not the
interview under analysis (`_calculate_historical_risk` does not receive
`interview_id`). -/
def historical_query (rows : List Interview) (candidate_id : Nat) : List PyStr :=
  let mine := rows.filter (fun r => r.candidate_id == candidate_id)
  let latest := latestInterviewId mine
  (mine.filter
    (fun r => !(latest == some r.id) && terminalStatuses.contains r.status)).map
    (·.status)

/-- Embeds `NoShowRiskAnalyzer._calculate_historical_risk`: 0.5 on an empty
history, otherwise `min(no_show_rate + 0.5 * (1 - completion_rate), 1.0)`
over the queried statuses.  The lookup-failure `except` branch returning
0.5 is unreachable in the total model. -/
def calculate_historical_risk (rows : List Interview) (candidate_id : Nat) : ℚ :=
  let past := historical_query rows candidate_id
  if past = [] then 1 / 2
  else
    let total : ℚ := past.length
    let no_shows : ℚ := (past.filter (· == lit "no_show")).length
    let completed : ℚ := (past.filter (· == lit "completed")).length
    min (no_shows / total + (1 - completed / total) * (1 / 2)) 1

/-- Embeds `NoShowRiskAnalyzer._categorize_risk`. -/
def categorize_risk (risk_score : ℚ) : PyStr :=
  if risk_score < 3 / 10 then lit "low"
  else if risk_score < 7 / 10 then lit "medium"
  else lit "high"

/-- Embeds `NoShowRiskAnalyzer._get_response_time_hours`: the reporting
view of the response time, 0.0 when unanswered or a timestamp is missing,
otherwise the elapsed hours rounded to one decimal place. -/
def get_response_time_hours (interview : Interview) : ℚ :=
  if interview.status = lit "invitation_sent" then 0
  else
    match interview.created_at, interview.updated_at with
    | some created_at, some updated_at =>
      pyRound (((updated_at - created_at : ℤ) : ℚ) / 3600) 1
    | _, _ => 0

/-- Embeds `NoShowRiskAnalyzer._get_negotiation_rounds_from_risk`. -/
def get_negotiation_rounds_from_risk (negotiation_risk : ℚ) : ℤ :=
  if negotiation_risk ≤ 1 / 10 then 0
  else if negotiation_risk ≤ 2 / 10 then 1
  else if negotiation_risk ≤ 5 / 10 then 2
  else 3

/-- The weighted combination of `analyze_risk` with the fixed
`self.weights` (response_time 0.30, negotiation_complexity 0.25,
profile_completeness 0.20, historical_pattern 0.25). -/
def total_risk_formula (response negotiation profile historical : ℚ) : ℚ :=
  response * (30 / 100) + negotiation * (25 / 100) + profile * (20 / 100)
    + historical * (25 / 100)

/-- The returned `no_show_risk` field as a function of the four sub-risks:
the weighted sum rounded to two decimal places. -/
def returned_no_show_risk (response negotiation profile historical : ℚ) : ℚ :=
  pyRound (total_risk_formula response negotiation profile historical) 2

/-- The `factors` dictionary of the `analyze_risk` response. -/
structure RiskFactors where
  response_time_hours : ℚ
  negotiation_rounds : ℤ
  profile_completeness : ℚ
  historical_reliability : ℚ
deriving DecidableEq

/-- The `analyze_risk` response dictionary. -/
structure RiskResult where
  no_show_risk : ℚ
  risk_level : PyStr
  factors : RiskFactors
deriving DecidableEq

/-- Embeds `NoShowRiskAnalyzer.analyze_risk` after the entity fetches: the
interview, candidate and application records are the fetched rows (the
not-found `ValueError` paths are outside this model), `negotiation` is the
most recent negotiation-session round for the interview, `rows` is the
`interviews` table contents consumed by the historical query, and
`candidate_id` is the request's candidate id, which the historical risk
uses directly. -/
def analyze_risk (interview : Interview) (candidate : Candidate)
    (application : Application) (negotiation : Option ℤ)
    (rows : List Interview) (candidate_id : Nat) : RiskResult :=
  let response_risk := calculate_response_time_risk interview
  let negotiation_risk := calculate_negotiation_risk negotiation
  let profile_risk := calculate_profile_completeness_risk candidate application
  let historical_risk := calculate_historical_risk rows candidate_id
  let total_risk :=
    total_risk_formula response_risk negotiation_risk profile_risk historical_risk
  { no_show_risk := pyRound total_risk 2
    risk_level := categorize_risk total_risk
    factors :=
      { response_time_hours := get_response_time_hours interview
        negotiation_rounds := get_negotiation_rounds_from_risk negotiation_risk
        profile_completeness := pyRound (1 - profile_risk) 2
        historical_reliability := pyRound (1 - historical_risk) 2 } }

/-! ## Specification-side definitions and concrete records -/

/-- Modelled from the spec (claim C5 wording): the candidate's interviews in
a terminal state excluding the interview under analysis itself, projected to
status.  This follows the claim's words and exists only for comparison with
`historical_query`, which embeds what the SQL actually selects. -/
def claimed_historical_selection (rows : List Interview)
    (candidate_id analyzed_id : Nat) : List PyStr :=
  (rows.filter (fun r => r.candidate_id == candidate_id
      && (!(r.id == analyzed_id) && terminalStatuses.contains r.status))).map
    (·.status)

/-- Modelled from the spec (claim C5 wording): 0.5 on an empty selection,
otherwise `min(no_show_rate + 0.5 * (1 - completion_rate), 1.0)` over the
claimed selection. -/
def claimed_historical_risk (rows : List Interview)
    (candidate_id analyzed_id : Nat) : ℚ :=
  let past := claimed_historical_selection rows candidate_id analyzed_id
  if past = [] then 1 / 2
  else
    min (((past.filter (· == lit "no_show")).length : ℚ) / past.length
      + (1 - ((past.filter (· == lit "completed")).length : ℚ) / past.length)
        * (1 / 2)) 1

/-- An interview of candidate 7 answered three hours after creation. -/
def boundary_interview : Interview :=
  ⟨1, 7, lit "confirmed", some 100, some 10900⟩

/-- An interviews table in which `boundary_interview` (id 1) is the
candidate's newest interview and the history holds two completions and one
cancellation, giving a historical risk of exactly 1/6. -/
def boundary_rows : List Interview :=
  [boundary_interview,
   ⟨2, 7, lit "completed", some 10, some 10⟩,
   ⟨3, 7, lit "completed", some 20, some 20⟩,
   ⟨4, 7, lit "cancelled", some 30, some 30⟩]

/-- A candidate profile with every field NULL. -/
def blank_candidate : Candidate := ⟨none, none, none⟩

/-- An application record with every field NULL. -/
def blank_application : Application := ⟨none, none, none⟩

/-- An interviews table of candidate 7 in which the interview under
analysis (id 1, still pending) is not the most recently created one: id 2
is newer. -/
def stale_rows : List Interview :=
  [⟨1, 7, lit "confirmed", some 10, some 10⟩,
   ⟨2, 7, lit "completed", some 30, some 30⟩,
   ⟨3, 7, lit "no_show", some 20, some 20⟩]

/-- An interviews table of candidate 7 in which the interview under
analysis (id 1) is the most recently created one. -/
def fresh_rows : List Interview :=
  [⟨1, 7, lit "confirmed", some 100, some 100⟩,
   ⟨2, 7, lit "no_show", some 10, some 10⟩]

/-! ## Auxiliary lemmas -/

/-- Dropping a prefix never lengthens a list. -/
theorem length_dropWhileChar_le (p : Char → Bool) (l : List Char) :
    (l.dropWhile p).length ≤ l.length := by
  induction l with
  | nil => simp
  | cons a l ih =>
    rw [List.dropWhile_cons]
    split
    · exact Nat.le_succ_of_le ih
    · simp

/-- Stripping never lengthens a string. -/
theorem pyStrip_length_le (s : PyStr) : (pyStrip s).length ≤ s.length := by
  unfold pyStrip
  have h1 := length_dropWhileChar_le Char.isWhitespace s
  have h2 := length_dropWhileChar_le Char.isWhitespace
    (s.dropWhile Char.isWhitespace).reverse
  simp only [List.length_reverse] at h2 ⊢
  omega

/-- Round-half-to-even never rounds below the floor. -/
theorem le_rhalfEven (q : ℚ) : ⌊q⌋ ≤ rhalfEven q := by
  unfold rhalfEven
  split
  · split <;> omega
  · rw [round_eq]
    have h1 : (⌊q⌋ : ℚ) ≤ q := Int.floor_le q
    exact Int.le_floor.mpr (by linarith)

/-- Round-half-to-even never rounds above the floor plus one. -/
theorem rhalfEven_le (q : ℚ) : rhalfEven q ≤ ⌊q⌋ + 1 := by
  unfold rhalfEven
  split
  · split <;> omega
  · rw [round_eq]
    have h1 : q < (⌊q⌋ : ℚ) + 1 := Int.lt_floor_add_one q
    have h2 : ⌊q + 1 / 2⌋ < ⌊q⌋ + 2 := Int.floor_lt.mpr (by push_cast; linarith)
    omega

/-- Below the midpoint, round-half-to-even rounds down. -/
theorem rhalfEven_eq_floor_of_lt {q : ℚ} (h : q - ⌊q⌋ < 1 / 2) :
    rhalfEven q = ⌊q⌋ := by
  unfold rhalfEven
  rw [if_neg (by intro he; rw [he] at h; norm_num at h), round_eq]
  have h1 : ⌊q + 1 / 2⌋ < ⌊q⌋ + 1 := Int.floor_lt.mpr (by push_cast; linarith)
  have h2 : ⌊q⌋ ≤ ⌊q + 1 / 2⌋ := Int.floor_mono (by linarith)
  omega

/-- Above the midpoint, round-half-to-even rounds up. -/
theorem rhalfEven_eq_succ_of_gt {q : ℚ} (h : 1 / 2 < q - ⌊q⌋) :
    rhalfEven q = ⌊q⌋ + 1 := by
  unfold rhalfEven
  rw [if_neg (by intro he; rw [he] at h; norm_num at h), round_eq]
  have hub : q < (⌊q⌋ : ℚ) + 1 := Int.lt_floor_add_one q
  have h1 : ⌊q + 1 / 2⌋ < ⌊q⌋ + 2 := Int.floor_lt.mpr (by push_cast; linarith)
  have h2 : ⌊q⌋ + 1 ≤ ⌊q + 1 / 2⌋ := Int.le_floor.mpr (by push_cast; linarith)
  omega

/-- Round-half-to-even is monotone. -/
theorem rhalfEven_mono {x y : ℚ} (h : x ≤ y) : rhalfEven x ≤ rhalfEven y := by
  rcases lt_or_le ⌊x⌋ ⌊y⌋ with hf | hf
  · have h1 := rhalfEven_le x
    have h2 := le_rhalfEven y
    omega
  · have hfe : ⌊x⌋ = ⌊y⌋ := le_antisymm (Int.floor_mono h) hf
    have hcast : ((⌊x⌋ : ℤ) : ℚ) = ((⌊y⌋ : ℤ) : ℚ) := by rw [hfe]
    have hfr : x - ⌊x⌋ ≤ y - ⌊y⌋ := by rw [hcast]; linarith
    rcases lt_trichotomy (x - ⌊x⌋) ((1 : ℚ) / 2) with hx | hx | hx
    · rw [rhalfEven_eq_floor_of_lt hx]
      have := le_rhalfEven y
      omega
    · have h12 : (1 : ℚ) / 2 ≤ y - ⌊y⌋ := by rw [← hx]; exact hfr
      rcases eq_or_lt_of_le h12 with hy | hy
      · have hxy : x = y := by rw [hcast] at hx; linarith
        rw [hxy]
      · rw [rhalfEven_eq_succ_of_gt hy]
        have := rhalfEven_le x
        omega
    · have hy : (1 : ℚ) / 2 < y - ⌊y⌋ := lt_of_lt_of_le hx hfr
      rw [rhalfEven_eq_succ_of_gt hx, rhalfEven_eq_succ_of_gt hy]
      omega

/-- Round-half-to-even of a nonpositive number is nonpositive. -/
theorem rhalfEven_nonpos {q : ℚ} (h : q ≤ 0) : rhalfEven q ≤ 0 := by
  rcases eq_or_lt_of_le h with heq | hlt
  · rw [heq]
    unfold rhalfEven
    norm_num [round_eq]
  · have hfl : ⌊q⌋ < 0 := Int.floor_lt.mpr (by push_cast; linarith)
    have := rhalfEven_le q
    omega

/-- Round-half-to-even of a number below minus one half is negative. -/
theorem rhalfEven_neg {q : ℚ} (h : q < -(1 / 2)) : rhalfEven q < 0 := by
  rcases lt_trichotomy (q - ⌊q⌋) ((1 : ℚ) / 2) with hx | hx | hx
  · rw [rhalfEven_eq_floor_of_lt hx]
    exact Int.floor_lt.mpr (by push_cast; linarith)
  · have h2 : (⌊q⌋ : ℚ) < -1 := by linarith
    have h3 : ⌊q⌋ < -1 := by exact_mod_cast h2
    unfold rhalfEven
    rw [if_pos hx]
    split <;> omega
  · rw [rhalfEven_eq_succ_of_gt hx]
    have hup : (⌊q⌋ : ℚ) ≤ q := Int.floor_le q
    have h2 : (⌊q⌋ : ℚ) < -1 := by linarith
    have h3 : ⌊q⌋ < -1 := by exact_mod_cast h2
    omega

/-- Python rounding is monotone. -/
theorem pyRound_mono {x y : ℚ} (hxy : x ≤ y) (nd : Nat) :
    pyRound x nd ≤ pyRound y nd := by
  unfold pyRound
  have h10 : (0 : ℚ) < (10 : ℚ) ^ nd := by positivity
  have h1 : x * (10 : ℚ) ^ nd ≤ y * (10 : ℚ) ^ nd :=
    mul_le_mul_of_nonneg_right hxy h10.le
  have h2 := rhalfEven_mono h1
  have h3 : ((rhalfEven (x * (10 : ℚ) ^ nd) : ℤ) : ℚ)
      ≤ ((rhalfEven (y * (10 : ℚ) ^ nd) : ℤ) : ℚ) := by exact_mod_cast h2
  gcongr

/-- Python rounding of a nonpositive number is nonpositive. -/
theorem pyRound_nonpos {q : ℚ} (h : q ≤ 0) (nd : Nat) : pyRound q nd ≤ 0 := by
  unfold pyRound
  have h10 : (0 : ℚ) < (10 : ℚ) ^ nd := by positivity
  have h1 : q * (10 : ℚ) ^ nd ≤ 0 := mul_nonpos_iff.mpr (Or.inr ⟨h, h10.le⟩)
  have h2 : rhalfEven (q * (10 : ℚ) ^ nd) ≤ 0 := rhalfEven_nonpos h1
  have h3 : ((rhalfEven (q * (10 : ℚ) ^ nd) : ℤ) : ℚ) ≤ 0 := by exact_mod_cast h2
  exact div_nonpos_of_nonpos_of_nonneg h3 h10.le

/-- Python rounding of a number whose scaled value is below minus one half
is negative. -/
theorem pyRound_neg {q : ℚ} {nd : Nat} (h : q * (10 : ℚ) ^ nd < -(1 / 2)) :
    pyRound q nd < 0 := by
  unfold pyRound
  have h10 : (0 : ℚ) < (10 : ℚ) ^ nd := by positivity
  have h2 : rhalfEven (q * (10 : ℚ) ^ nd) < 0 := rhalfEven_neg h
  have h3 : ((rhalfEven (q * (10 : ℚ) ^ nd) : ℤ) : ℚ) < 0 := by exact_mod_cast h2
  exact div_neg_of_neg_of_pos h3 h10

/-! ## Claim C1 -/

/-- Claim C1: for every valid feature set (as produced by feature extraction
from the resume text) and every pair of texts with similarity score `sim`,
the fit score returned by `process_application` equals
`round(100*(0.40*sim + 0.25*min(yrs/10,1) + 0.20*min(proj/15,1) +
0.10*min(len(skills)/10,1) + 0.05*(edu/5)), 2)` within a tolerance of 0.1
(the model computes it exactly, hence the difference is zero), and
recomputing with identical inputs yields an identical result. -/
theorem c1_fit_score_formula (split : PyStr → List PyStr)
    (score : List PyStr → List ℚ) (sim : ℚ) (resume_text job_description : PyStr)
    (h : 50 ≤ (pyStrip resume_text).length) :
    |(process_application split score sim resume_text job_description).fit_score
        - pyRound (100 * ((40 / 100) * sim
          + (25 / 100) * min (((extract_features resume_text).years_experience : ℚ) / 10) 1
          + (20 / 100) * min (((extract_features resume_text).project_count : ℚ) / 15) 1
          + (10 / 100) * min (((extract_features resume_text).skills.length : ℚ) / 10) 1
          + (5 / 100) * (((extract_features resume_text).education_score : ℚ) / 5))) 2|
      ≤ 1 / 10
    ∧ process_application split score sim resume_text job_description
      = process_application split score sim resume_text job_description := by
  refine ⟨?_, rfl⟩
  have hcond : ¬(resume_text = [] ∨ (pyStrip resume_text).length < 50) := by
    rintro (rfl | hlt)
    · simp [pyStrip] at h
    · omega
  have hfs : (process_application split score sim resume_text job_description).fit_score
      = pyRound (compute_fit_score sim (extract_features resume_text)) 2 := by
    simp only [process_application, if_neg hcond]
  rw [hfs]
  have heq : compute_fit_score sim (extract_features resume_text)
      = 100 * ((40 / 100) * sim
          + (25 / 100) * min (((extract_features resume_text).years_experience : ℚ) / 10) 1
          + (20 / 100) * min (((extract_features resume_text).project_count : ℚ) / 15) 1
          + (10 / 100) * min (((extract_features resume_text).skills.length : ℚ) / 10) 1
          + (5 / 100) * (((extract_features resume_text).education_score : ℚ) / 5)) := by
    simp only [compute_fit_score, experience_subscore, project_subscore, skills_subscore,
      education_subscore]
    ring
  rw [heq, sub_self, abs_zero]
  norm_num

/-- Witness for C1: the theorem applied to a concrete 64-character resume
text, a concrete job description, similarity 1/2 and concrete oracles. -/
theorem c1_fit_score_formula_witness :
    50 ≤ (pyStrip (lit "python developer with 9 years of experience building sql systems")).length
    ∧ (|(process_application (fun t => [t]) (fun _ => [1]) (1 / 2)
          (lit "python developer with 9 years of experience building sql systems")
          (lit "python job")).fit_score
        - pyRound (100 * ((40 / 100) * (1 / 2)
          + (25 / 100) * min (((extract_features
              (lit "python developer with 9 years of experience building sql systems")).years_experience : ℚ) / 10) 1
          + (20 / 100) * min (((extract_features
              (lit "python developer with 9 years of experience building sql systems")).project_count : ℚ) / 15) 1
          + (10 / 100) * min (((extract_features
              (lit "python developer with 9 years of experience building sql systems")).skills.length : ℚ) / 10) 1
          + (5 / 100) * (((extract_features
              (lit "python developer with 9 years of experience building sql systems")).education_score : ℚ) / 5))) 2|
        ≤ 1 / 10
      ∧ process_application (fun t => [t]) (fun _ => [1]) (1 / 2)
          (lit "python developer with 9 years of experience building sql systems")
          (lit "python job")
        = process_application (fun t => [t]) (fun _ => [1]) (1 / 2)
          (lit "python developer with 9 years of experience building sql systems")
          (lit "python job")) :=
  ⟨by decide,
   c1_fit_score_formula (fun t => [t]) (fun _ => [1]) (1 / 2)
     (lit "python developer with 9 years of experience building sql systems")
     (lit "python job") (by decide)⟩

/-! ## Claim C2 -/

/-- Counterexample to claim C2: a features dictionary carrying the
out-of-range value `education_score = 10` produces an education sub-score of
2, outside `[0, 1]`, and `_compute_fit_score` propagates it unclamped into
the weighted sum: with zero similarity and no other signal the fit score is
10, exactly the unclamped `2 * 0.05 * 100` (a clamped sub-score would have
given 5). -/
theorem c2_counterexample :
    1 < education_subscore ⟨[], 0, 0, 10⟩
    ∧ compute_fit_score 0 ⟨[], 0, 0, 10⟩ = 10 := by
  constructor
  · norm_num [education_subscore]
  · norm_num [compute_fit_score, education_subscore, experience_subscore,
      project_subscore, skills_subscore]

/-- Claim C2, amended: the experience, project and skills sub-scores are
clamped into `[0, 1]` by `min` (their inputs are nonnegative counts); the
education sub-score is `education_score / 5` with no clamp, is nonnegative,
and lies in `[0, 1]` only under the extra assumption `education_score ≤ 5`
(which feature extraction guarantees but the combiner does not enforce).
The similarity input is likewise used unclamped. -/
theorem c2_amended (f : Features) :
    0 ≤ experience_subscore f ∧ experience_subscore f ≤ 1
    ∧ 0 ≤ project_subscore f ∧ project_subscore f ≤ 1
    ∧ 0 ≤ skills_subscore f ∧ skills_subscore f ≤ 1
    ∧ 0 ≤ education_subscore f
    ∧ (f.education_score ≤ 5 → education_subscore f ≤ 1) := by
  refine ⟨?_, ?_, ?_, ?_, ?_, ?_, ?_, ?_⟩
  · exact le_min (by positivity) zero_le_one
  · exact min_le_right _ _
  · exact le_min (by positivity) zero_le_one
  · exact min_le_right _ _
  · exact le_min (by positivity) zero_le_one
  · exact min_le_right _ _
  · unfold education_subscore; positivity
  · intro h
    unfold education_subscore
    rw [div_le_one (by norm_num)]
    exact_mod_cast Nat.cast_le.mpr (h.trans (by norm_num))

/-- Witness for C2 (amended): at a feature record with `education_score = 4`
the in-range hypothesis holds and the education sub-score is at most one. -/
theorem c2_amended_witness :
    (⟨[], 0, 0, 4⟩ : Features).education_score ≤ 5
    ∧ education_subscore ⟨[], 0, 0, 4⟩ ≤ 1 :=
  ⟨by decide, (c2_amended ⟨[], 0, 0, 4⟩).2.2.2.2.2.2.2 (by decide)⟩

/-! ## Claim C3 -/

set_option maxRecDepth 8000 in
/-- Claim C3 evaluated at the failing input: a resume consisting of one
sentence of 210 characters plus a period, with `max_length = 200`, makes
`generate_summary` take the two-or-fewer-sentence branch, truncate to 200
characters and still append `"..."`, returning 203 characters — more than
`max_length`, contradicting the claimed bound (and the code's own comment
"Ensure we don't exceed max_length" and its docstring). -/
theorem c3_summary_exceeds_max_length :
    200 < (generate_summary (fun t => [t]) (fun s => s.map fun _ => (1 : ℚ))
        (List.replicate 210 'a' ++ ['.']) 200).length
    ∧ (generate_summary (fun t => [t]) (fun s => s.map fun _ => (1 : ℚ))
        (List.replicate 210 'a' ++ ['.']) 200).length = 203 := by
  constructor
  · decide
  · decide

/-! ## Claim C4 -/

/-- Counterexample to claim C4: at the boundary input the unrounded weighted
sum is 89/300 ≈ 0.2967, so the reported `no_show_risk` rounds to exactly
0.3 while the reported `risk_level`, computed from the unrounded sum, is
"low" — although the claim's bands demand "medium" for a reported score of
0.3. -/
theorem c4_counterexample :
    (3 : ℚ) / 10 ≤ (analyze_risk boundary_interview blank_candidate
        blank_application none boundary_rows 7).no_show_risk
    ∧ (analyze_risk boundary_interview blank_candidate
        blank_application none boundary_rows 7).no_show_risk < 7 / 10
    ∧ (analyze_risk boundary_interview blank_candidate
        blank_application none boundary_rows 7).risk_level ≠ lit "medium" := by
  have hrt : calculate_response_time_risk boundary_interview = 1 / 10 := by
    unfold calculate_response_time_risk boundary_interview
    rw [if_neg (by decide)]
    norm_num
  have hneg : calculate_negotiation_risk none = 1 / 10 := rfl
  have hprof : calculate_profile_completeness_risk blank_candidate
      blank_application = 1 := by
    unfold calculate_profile_completeness_risk blank_candidate blank_application
      fieldFilled fieldMeaningful
    norm_num
  have h1 : ((historical_query boundary_rows 7).filter
      (· == lit "no_show")).length = 0 := by decide
  have h2 : ((historical_query boundary_rows 7).filter
      (· == lit "completed")).length = 2 := by decide
  have h3 : (historical_query boundary_rows 7).length = 3 := by decide
  have h4 : ¬ historical_query boundary_rows 7 = [] := by decide
  have hhist : calculate_historical_risk boundary_rows 7 = 1 / 6 := by
    simp only [calculate_historical_risk, if_neg h4, h1, h2, h3]
    rw [min_eq_left (by norm_num)]
    norm_num
  have htotal : total_risk_formula (1 / 10) (1 / 10) 1 (1 / 6) = 89 / 300 := by
    unfold total_risk_formula
    norm_num
  have hns : (analyze_risk boundary_interview blank_candidate
      blank_application none boundary_rows 7).no_show_risk = pyRound (89 / 300) 2 := by
    simp only [analyze_risk, hrt, hneg, hprof, hhist, htotal]
  have hlev : (analyze_risk boundary_interview blank_candidate
      blank_application none boundary_rows 7).risk_level
      = categorize_risk (89 / 300) := by
    simp only [analyze_risk, hrt, hneg, hprof, hhist, htotal]
  have hpr : pyRound (89 / 300) 2 = 3 / 10 := by
    norm_num [pyRound, rhalfEven, round_eq]
  have hcat : categorize_risk (89 / 300) = lit "low" := by
    unfold categorize_risk
    rw [if_pos (by norm_num)]
  refine ⟨?_, ?_, ?_⟩
  · rw [hns, hpr]
  · rw [hns, hpr]; norm_num
  · rw [hlev, hcat]; decide

/-- Claim C4, amended: the reported `risk_level` is determined by the
unrounded weighted sum (not by the reported, rounded `no_show_risk`) under
the strict half-open bands `t < 0.3 → "low"`, `0.3 ≤ t < 0.7 → "medium"`,
`0.7 ≤ t → "high"`, which are exhaustive and non-overlapping; the reported
`no_show_risk` is that same sum rounded to two decimals, so the pair can
disagree only when rounding crosses a band boundary. -/
theorem c4_amended (interview : Interview) (candidate : Candidate)
    (application : Application) (negotiation : Option ℤ)
    (rows : List Interview) (candidate_id : Nat) :
    (analyze_risk interview candidate application negotiation rows
        candidate_id).risk_level
      = categorize_risk (total_risk_formula
          (calculate_response_time_risk interview)
          (calculate_negotiation_risk negotiation)
          (calculate_profile_completeness_risk candidate application)
          (calculate_historical_risk rows candidate_id))
    ∧ (analyze_risk interview candidate application negotiation rows
        candidate_id).no_show_risk
      = pyRound (total_risk_formula
          (calculate_response_time_risk interview)
          (calculate_negotiation_risk negotiation)
          (calculate_profile_completeness_risk candidate application)
          (calculate_historical_risk rows candidate_id)) 2
    ∧ (∀ t : ℚ, t < 3 / 10 → categorize_risk t = lit "low")
    ∧ (∀ t : ℚ, 3 / 10 ≤ t → t < 7 / 10 → categorize_risk t = lit "medium")
    ∧ (∀ t : ℚ, 7 / 10 ≤ t → categorize_risk t = lit "high") := by
  refine ⟨rfl, rfl, ?_, ?_, ?_⟩
  · intro t ht
    unfold categorize_risk
    rw [if_pos ht]
  · intro t h1 h2
    unfold categorize_risk
    rw [if_neg (not_lt.mpr h1), if_pos h2]
  · intro t h1
    unfold categorize_risk
    rw [if_neg (not_lt.mpr (by linarith)), if_neg (not_lt.mpr h1)]

/-- Witness for C4 (amended): the medium band applied at the score 1/2. -/
theorem c4_amended_witness :
    (3 : ℚ) / 10 ≤ 1 / 2 ∧ ((1 : ℚ) / 2 < 7 / 10
      ∧ categorize_risk (1 / 2) = lit "medium") :=
  ⟨by norm_num, by norm_num,
   (c4_amended ⟨1, 1, lit "confirmed", none, none⟩ ⟨none, none, none⟩
     ⟨none, none, none⟩ none [] 1).2.2.2.1 (1 / 2) (by norm_num) (by norm_num)⟩

/-! ## Claim C5 -/

/-- Equality test of optional ids, swapped: used to align the SQL's
`id != (SELECT ...)` comparison with the claim's wording. -/
theorem some_beq_swap (a b : Nat) : (some a == some b) = (b == a) := by
  by_cases h : a = b
  · subst h; simp
  · simp [h, Ne.symm h]

/-- Counterexample to claim C5: for candidate 7 of `stale_rows`, analyzing
interview 1 (which is not the candidate's most recent interview), the code
excludes the newer interview 2 and keeps the no-show row, yielding risk 1,
while the claim's selection (excluding the interview under analysis)
yields 3/4. -/
theorem c5_counterexample :
    calculate_historical_risk stale_rows 7 = 1
    ∧ claimed_historical_risk stale_rows 7 1 = 3 / 4
    ∧ calculate_historical_risk stale_rows 7
      ≠ claimed_historical_risk stale_rows 7 1 := by
  have f1 : ((historical_query stale_rows 7).filter
      (· == lit "no_show")).length = 1 := by decide
  have f2 : ((historical_query stale_rows 7).filter
      (· == lit "completed")).length = 0 := by decide
  have f3 : (historical_query stale_rows 7).length = 1 := by decide
  have f4 : ¬ historical_query stale_rows 7 = [] := by decide
  have hcode : calculate_historical_risk stale_rows 7 = 1 := by
    simp only [calculate_historical_risk, if_neg f4, f1, f2, f3]
    rw [min_eq_right (by norm_num)]
  have g1 : ((claimed_historical_selection stale_rows 7 1).filter
      (· == lit "no_show")).length = 1 := by decide
  have g2 : ((claimed_historical_selection stale_rows 7 1).filter
      (· == lit "completed")).length = 1 := by decide
  have g3 : (claimed_historical_selection stale_rows 7 1).length = 2 := by decide
  have g4 : ¬ claimed_historical_selection stale_rows 7 1 = [] := by decide
  have hclaim : claimed_historical_risk stale_rows 7 1 = 3 / 4 := by
    simp only [claimed_historical_risk, if_neg g4, g1, g2, g3]
    rw [min_eq_left (by norm_num)]
    norm_num
  exact ⟨hcode, hclaim, by rw [hcode, hclaim]; norm_num⟩

/-- Claim C5, amended: the historical-reliability query excludes the
candidate's most recently created interview, not the interview under
analysis (`_calculate_historical_risk` never receives the interview id);
the two selections coincide exactly when the analyzed interview is the
candidate's most recent.  On the empty selection the risk is 0.5, otherwise
`min(no_show_rate + 0.5 * (1 - completion_rate), 1.0)`. -/
theorem c5_amended (rows : List Interview) (candidate_id analyzed_id : Nat)
    (hlatest : latestInterviewId
        (rows.filter (fun r => r.candidate_id == candidate_id))
      = some analyzed_id) :
    historical_query rows candidate_id
      = claimed_historical_selection rows candidate_id analyzed_id
    ∧ calculate_historical_risk rows candidate_id
      = claimed_historical_risk rows candidate_id analyzed_id
    ∧ (historical_query rows candidate_id = [] →
        calculate_historical_risk rows candidate_id = 1 / 2)
    ∧ (¬ historical_query rows candidate_id = [] →
        calculate_historical_risk rows candidate_id
          = min ((((historical_query rows candidate_id).filter
                (· == lit "no_show")).length : ℚ)
              / ((historical_query rows candidate_id).length : ℚ)
            + (1 - (((historical_query rows candidate_id).filter
                (· == lit "completed")).length : ℚ)
              / ((historical_query rows candidate_id).length : ℚ)) * (1 / 2)) 1) := by
  have hsel : historical_query rows candidate_id
      = claimed_historical_selection rows candidate_id analyzed_id := by
    simp only [historical_query, claimed_historical_selection, hlatest]
    rw [List.filter_filter]
    congr 1
    apply List.filter_congr
    intro r _
    rw [some_beq_swap]
    exact Bool.and_comm _ _
  refine ⟨hsel, ?_, ?_, ?_⟩
  · simp only [calculate_historical_risk, claimed_historical_risk, hsel]
  · intro h
    simp only [calculate_historical_risk, if_pos h]
  · intro h
    simp only [calculate_historical_risk, if_neg h]

/-- Witness for C5 (amended): in `fresh_rows` the analyzed interview (id 1)
is the candidate's most recent, and the code's historical risk agrees with
the claimed one. -/
theorem c5_amended_witness :
    latestInterviewId (fresh_rows.filter (fun r => r.candidate_id == 7))
      = some 1
    ∧ calculate_historical_risk fresh_rows 7
      = claimed_historical_risk fresh_rows 7 1 :=
  ⟨by decide, (c5_amended fresh_rows 7 1 (by decide)).2.1⟩

/-! ## Claim C6 -/

/-- Claim C6: for every request whose fetched resume text is 40 characters
long (under the 50-character minimum) and whose job description is valid,
`process_application` returns `success = false`, `fit_score = 0.0`, the
error-path summary sentinel (the empty string, as in the spec's internal
failure response shape), zeroed features, and an error message instead of
an escaping exception. -/
theorem c6_short_resume (split : PyStr → List PyStr)
    (score : List PyStr → List ℚ) (sim : ℚ) (resume_text job_description : PyStr)
    (h : resume_text.length = 40) :
    process_application split score sim resume_text job_description
      = { success := false
          fit_score := 0
          summary := []
          extracted_features := ⟨[], 0, 0, 0⟩
          error := some (lit "Resume text is empty or too short") } := by
  have hlt : (pyStrip resume_text).length < 50 := by
    have h1 := pyStrip_length_le resume_text
    omega
  unfold process_application
  rw [if_pos (Or.inr hlt)]

/-- Witness for C6: a concrete 40-character resume text. -/
theorem c6_short_resume_witness :
    (List.replicate 40 'x').length = 40
    ∧ process_application (fun t => [t]) (fun _ => []) 0
        (List.replicate 40 'x') (lit "python job")
      = { success := false
          fit_score := 0
          summary := []
          extracted_features := ⟨[], 0, 0, 0⟩
          error := some (lit "Resume text is empty or too short") } :=
  ⟨by decide,
   c6_short_resume (fun t => [t]) (fun _ => []) 0 (List.replicate 40 'x')
     (lit "python job") (by decide)⟩

/-! ## Claim C7 -/

/-- Counterexample to claim C7: two sub-risk assignments, all four values in
`[0, 1]`, that differ only in a strictly larger historical sub-risk
(0.004 versus 0.0045 — both reachable as historical rates) but produce the
same returned `no_show_risk` 0.10, because the weighted sums 0.101 and
0.101125 round to the same two decimals. -/
theorem c7_counterexample :
    (4 : ℚ) / 1000 < 45 / 10000
    ∧ returned_no_show_risk (1 / 10) (2 / 10) (1 / 10) (4 / 1000)
      = returned_no_show_risk (1 / 10) (2 / 10) (1 / 10) (45 / 10000) := by
  constructor
  · norm_num
  · have h1 : returned_no_show_risk (1 / 10) (2 / 10) (1 / 10) (4 / 1000)
        = pyRound (101 / 1000) 2 := by
      unfold returned_no_show_risk total_risk_formula
      norm_num
    have h2 : returned_no_show_risk (1 / 10) (2 / 10) (1 / 10) (45 / 10000)
        = pyRound (809 / 8000) 2 := by
      unfold returned_no_show_risk total_risk_formula
      norm_num
    rw [h1, h2]
    norm_num [pyRound, rhalfEven, round_eq]

/-- Claim C7, amended: strictly increasing any single sub-risk while holding
the other three fixed strictly increases the weighted sum before rounding;
the returned `no_show_risk` (the sum rounded to two decimals) is only
non-decreasing, since a strict increase smaller than the rounding
resolution leaves the reported value unchanged. -/
theorem c7_amended (r r' n n' p p' h h' : ℚ) :
    (r < r' → total_risk_formula r n p h < total_risk_formula r' n p h)
    ∧ (n < n' → total_risk_formula r n p h < total_risk_formula r n' p h)
    ∧ (p < p' → total_risk_formula r n p h < total_risk_formula r n p' h)
    ∧ (h < h' → total_risk_formula r n p h < total_risk_formula r n p h')
    ∧ (r ≤ r' → returned_no_show_risk r n p h ≤ returned_no_show_risk r' n p h)
    ∧ (n ≤ n' → returned_no_show_risk r n p h ≤ returned_no_show_risk r n' p h)
    ∧ (p ≤ p' → returned_no_show_risk r n p h ≤ returned_no_show_risk r n p' h)
    ∧ (h ≤ h' → returned_no_show_risk r n p h ≤ returned_no_show_risk r n p h') := by
  refine ⟨?_, ?_, ?_, ?_, ?_, ?_, ?_, ?_⟩
  · intro hlt
    unfold total_risk_formula
    nlinarith
  · intro hlt
    unfold total_risk_formula
    nlinarith
  · intro hlt
    unfold total_risk_formula
    nlinarith
  · intro hlt
    unfold total_risk_formula
    nlinarith
  · intro hle
    unfold returned_no_show_risk
    exact pyRound_mono (by unfold total_risk_formula; nlinarith) 2
  · intro hle
    unfold returned_no_show_risk
    exact pyRound_mono (by unfold total_risk_formula; nlinarith) 2
  · intro hle
    unfold returned_no_show_risk
    exact pyRound_mono (by unfold total_risk_formula; nlinarith) 2
  · intro hle
    unfold returned_no_show_risk
    exact pyRound_mono (by unfold total_risk_formula; nlinarith) 2

/-- Witness for C7 (amended): increasing the response-time sub-risk from 0
to 1 strictly increases the unrounded weighted sum. -/
theorem c7_amended_witness :
    total_risk_formula 0 0 0 0 < total_risk_formula 1 0 0 0 :=
  (c7_amended 0 1 0 0 0 0 0 0).1 (by norm_num)

/-! ## Claim C8 -/

/-- Claim C8: composing the round-to-risk banding of
`_calculate_negotiation_risk` (no record → 0.1, round = 1 → 0.2,
round = 2 → 0.5, other → 0.8) with `_get_negotiation_rounds_from_risk`
yields, for every stored round count `r ≥ 1`, a reported count of
`min(r, 3)`, and 0 when no negotiation record exists (the lookup-failure
branch returns the same 0.1 and hence also reports 0). -/
theorem c8_negotiation_rounds (r : ℤ) (h : 1 ≤ r) :
    get_negotiation_rounds_from_risk (calculate_negotiation_risk (some r))
      = min r 3
    ∧ get_negotiation_rounds_from_risk (calculate_negotiation_risk none) = 0 := by
  constructor
  · by_cases h1 : r = 1
    · subst h1
      have hv : calculate_negotiation_risk (some 1) = 2 / 10 := by
        unfold calculate_negotiation_risk
        norm_num
      rw [hv]
      unfold get_negotiation_rounds_from_risk
      rw [if_neg (by norm_num), if_pos (by norm_num)]
      decide
    · by_cases h2 : r = 2
      · subst h2
        have hv : calculate_negotiation_risk (some 2) = 5 / 10 := by
          unfold calculate_negotiation_risk
          norm_num
        rw [hv]
        unfold get_negotiation_rounds_from_risk
        rw [if_neg (by norm_num), if_neg (by norm_num), if_pos (by norm_num)]
        decide
      · have hv : calculate_negotiation_risk (some r) = 8 / 10 := by
          show (if r = 1 then (2 : ℚ) / 10
            else if r = 2 then (5 : ℚ) / 10 else 8 / 10) = 8 / 10
          rw [if_neg h1, if_neg h2]
        rw [hv]
        unfold get_negotiation_rounds_from_risk
        rw [if_neg (by norm_num), if_neg (by norm_num), if_neg (by norm_num),
          min_eq_right (by omega)]
  · have hv : calculate_negotiation_risk none = 1 / 10 := rfl
    rw [hv]
    unfold get_negotiation_rounds_from_risk
    rw [if_pos (by norm_num)]

/-- Witness for C8: a stored round count of 5 reports min(5, 3) = 3 rounds,
and a missing record reports 0. -/
theorem c8_negotiation_rounds_witness :
    (1 : ℤ) ≤ 5
    ∧ (get_negotiation_rounds_from_risk (calculate_negotiation_risk (some 5))
        = min (5 : ℤ) 3
      ∧ get_negotiation_rounds_from_risk (calculate_negotiation_risk none) = 0) :=
  ⟨by decide, c8_negotiation_rounds 5 (by decide)⟩

/-! ## Claim C9 -/

/-- Claim C9: education detection matches keywords as raw substrings of the
lowercased text; any text containing the two-letter substring "ba" (for
example inside "database") and no doctorate- or master's-tier keyword gets
education score 3 (the bachelor tier), never 0. -/
theorem c9_bachelor_substring (text : PyStr)
    (hba : pyIn (lit "ba") (pyLower text) = true)
    (hphd : pyIn (lit "phd") (pyLower text) = false)
    (hphd2 : pyIn (lit "ph.d") (pyLower text) = false)
    (hdoc : pyIn (lit "doctorate") (pyLower text) = false)
    (hmaster : pyIn (lit "master") (pyLower text) = false)
    (hmsc : pyIn (lit "msc") (pyLower text) = false)
    (hmsc2 : pyIn (lit "m.sc") (pyLower text) = false)
    (hmba : pyIn (lit "mba") (pyLower text) = false)
    (hmba2 : pyIn (lit "m.b.a") (pyLower text) = false) :
    extract_education_score text = 3 := by
  simp only [extract_education_score, List.any_cons, List.any_nil,
    hba, hphd, hphd2, hdoc, hmaster, hmsc, hmsc2, hmba, hmba2,
    Bool.or_false, Bool.false_or, Bool.true_or, Bool.or_true]
  rfl

/-- Witness for C9: the single word "database" contains "ba" and no higher
tier keyword, so its education score is 3. -/
theorem c9_bachelor_substring_witness :
    pyIn (lit "ba") (pyLower (lit "database")) = true
    ∧ extract_education_score (lit "database") = 3 :=
  ⟨by decide,
   c9_bachelor_substring (lit "database") (by decide) (by decide) (by decide)
     (by decide) (by decide) (by decide) (by decide) (by decide) (by decide)⟩

/-! ## Claim C10 -/

/-- Counterexample to claim C10: an interview updated 60 seconds before its
creation time has negative elapsed time and response-time risk 0.1 as the
claim says, but the reported `response_time_hours` is 0, not negative:
`round(-60/3600, 1)` is zero (Python's `-0.0`). -/
theorem c10_counterexample :
    calculate_response_time_risk ⟨1, 7, lit "confirmed", some 60, some 0⟩ = 1 / 10
    ∧ get_response_time_hours ⟨1, 7, lit "confirmed", some 60, some 0⟩ = 0
    ∧ ¬ get_response_time_hours ⟨1, 7, lit "confirmed", some 60, some 0⟩ < 0 := by
  have h1 : calculate_response_time_risk
      ⟨1, 7, lit "confirmed", some 60, some 0⟩ = 1 / 10 := by
    unfold calculate_response_time_risk
    rw [if_neg (by decide)]
    norm_num
  have h2 : get_response_time_hours
      ⟨1, 7, lit "confirmed", some 60, some 0⟩ = 0 := by
    unfold get_response_time_hours
    rw [if_neg (by decide)]
    norm_num [pyRound, rhalfEven, round_eq]
  exact ⟨h1, h2, by rw [h2]; norm_num⟩

/-- Claim C10, amended: for every interview whose status is not
"invitation_sent" and whose `updated_at` is strictly earlier than
`created_at`, the response-time risk is 0.1 (the lowest band, since the
negative elapsed hours fall under the 6-hour threshold) rather than the
missing-data 0.5, and the reported `response_time_hours` is at most 0 — and
strictly negative whenever the gap exceeds 180 seconds (half of the
one-decimal rounding unit; smaller gaps round to 0.0). -/
theorem c10_amended (i : Interview) (c u : ℤ)
    (hs : ¬ i.status = lit "invitation_sent")
    (hc : i.created_at = some c) (hu : i.updated_at = some u) (hlt : u < c) :
    calculate_response_time_risk i = 1 / 10
    ∧ get_response_time_hours i ≤ 0
    ∧ (180 < c - u → get_response_time_hours i < 0) := by
  have hneg : ((u - c : ℤ) : ℚ) < 0 := by
    have : (u - c : ℤ) < 0 := by omega
    exact_mod_cast this
  have hdiv : ((u - c : ℤ) : ℚ) / 3600 < 0 :=
    div_neg_of_neg_of_pos hneg (by norm_num)
  refine ⟨?_, ?_, ?_⟩
  · unfold calculate_response_time_risk
    rw [if_neg hs, hc, hu]
    dsimp only
    rw [if_pos (by linarith)]
  · unfold get_response_time_hours
    rw [if_neg hs, hc, hu]
    dsimp only
    exact pyRound_nonpos hdiv.le 1
  · intro h180
    unfold get_response_time_hours
    rw [if_neg hs, hc, hu]
    dsimp only
    apply pyRound_neg
    have hgap : ((u - c : ℤ) : ℚ) < -180 := by
      have : (u - c : ℤ) < -180 := by omega
      exact_mod_cast this
    have heq : ((u - c : ℤ) : ℚ) / 3600 * (10 : ℚ) ^ 1
        = ((u - c : ℤ) : ℚ) / 360 := by
      ring
    rw [heq, div_lt_iff₀ (by norm_num : (0 : ℚ) < 360)]
    linarith

/-- Witness for C10 (amended): an interview updated two hours before its
creation time has risk 0.1, a nonpositive reported response time, and (the
gap being over 180 seconds) a strictly negative reported response time. -/
theorem c10_amended_witness :
    calculate_response_time_risk ⟨1, 7, lit "confirmed", some 7200, some 0⟩ = 1 / 10
    ∧ get_response_time_hours ⟨1, 7, lit "confirmed", some 7200, some 0⟩ ≤ 0
    ∧ (180 < (7200 : ℤ) - 0 →
        get_response_time_hours ⟨1, 7, lit "confirmed", some 7200, some 0⟩ < 0) :=
  c10_amended ⟨1, 7, lit "confirmed", some 7200, some 0⟩ 7200 0 (by decide)
    rfl rfl (by decide)
